import Mathlib

/-!
Verification of the resilient operation layer of the mcp-gemini-filesearch
repository: a shallow embedding of src/lib/error-handler.ts and the relevant
parts of src/lib/gemini-client.ts, followed by theorems about the embedded
definitions.

Modelling conventions:
* JavaScript promises/exceptions become explicit `Except` values.
* The mutable `GeminiClient` fields (`storeId`, `storeName`) become an explicit
  `ClientState` record threaded through the operations.
* Remote HTTP responses, the system clock, the temp directory chosen by
  `mkdtemp`, and the node:crypto SHA-256 digests are external to the repository
  and are supplied through a `World` record of response functions; every
  theorem below quantifies over the `World` (or fixes a concrete one).
* Network requests are recorded in an explicit trace (`List NetCall`).
* Delay scheduling, jitter and `sleep` in `retryWithBackoff` affect only
  wall-clock timing, never control flow, and are therefore not modelled;
  attempt counting and propagation follow the source exactly.
-/

namespace GeminiFS

/-- The `ErrorCode` enum of src/lib/error-handler.ts (lines 14-45). -/
inductive ErrorCode where
  | FILE_TOO_LARGE
  | INVALID_FILE_TYPE
  | FILE_NOT_FOUND
  | UPLOAD_FAILED
  | DOWNLOAD_FAILED
  | INDEXING_TIMEOUT
  | INDEXING_FAILED
  | QUERY_FAILED
  | STORE_NOT_FOUND
  | STORE_ACCESS_DENIED
  | RATE_LIMITED
  | API_ERROR
  | AUTH_FAILED
  | VALIDATION_ERROR
  | INVALID_INPUT
  | NETWORK_ERROR
  | UNKNOWN_ERROR
  deriving DecidableEq, Repr

/-- The `MCPError` class of src/lib/error-handler.ts (lines 51-72): a
classified error carrying a code, message, retryable flag (constructor
default `false`) and an optional details map (modelled as an association
list of string keys to string values). -/
structure MCPError where
  code : ErrorCode
  message : String
  retryable : Bool := false
  details : Option (List (String × String)) := none
  deriving DecidableEq, Repr

/-- The failure values (`unknown` in TypeScript) that reach `isRetryable` and
`parseGeminiError`: an `MCPError`, a plain `Error` with a name and message, a
plain string, a non-Error object carrying a numeric `status` field, or any
other unrecognizable value. -/
inductive JSError where
  | mcp (e : MCPError)
  | err (name message : String)
  | str (s : String)
  | objWithStatus (status : Nat)
  | other
  deriving DecidableEq, Repr

/-- `RETRYABLE_ERROR_CODES` of src/lib/error-handler.ts (lines 78-83). -/
def RETRYABLE_ERROR_CODES : List ErrorCode :=
  [.RATE_LIMITED, .NETWORK_ERROR, .INDEXING_TIMEOUT, .API_ERROR]

/-- `RETRYABLE_HTTP_STATUS_CODES` of src/lib/error-handler.ts (line 85). -/
def RETRYABLE_HTTP_STATUS_CODES : List Nat := [408, 429, 500, 502, 503, 504]

/-- `isRetryable` of src/lib/error-handler.ts (lines 87-101).  For an
`MCPError` it is the explicit flag OR-ed with membership of the code in
`RETRYABLE_ERROR_CODES`; for an object with a numeric `status` it is
membership in `RETRYABLE_HTTP_STATUS_CODES` (a `status` of 0 is falsy in the
source and is also not in the set, so plain membership is equivalent);
everything else is not retryable. -/
def isRetryable : JSError → Bool
  | .mcp e => e.retryable || RETRYABLE_ERROR_CODES.contains e.code
  | .objWithStatus status => RETRYABLE_HTTP_STATUS_CODES.contains status
  | _ => false

/-- The attempt loop of `retryWithBackoff` (src/lib/error-handler.ts lines
130-159), with the unit of work modelled as a function from the (1-indexed)
attempt number to that invocation's outcome.  `fuel` is the number of loop
iterations still allowed (`maxAttempts + 1 - attempt`); when it reaches 0 the
loop has exited and the trailing `throw lastError` (line 162) runs, with
`lastError` still `undefined` (`none`) if the body never executed.  The
second component of the result counts how many times the unit of work was
invoked.  Delay lookup, jitter, the log line and the `onRetry` observer
(lines 142-156) do not influence the result and are not modelled. -/
def retryAux {α : Type} (fn : Nat → Except JSError α) (maxAttempts : Nat)
    (attempt : Nat) (lastError : Option JSError) (count : Nat) :
    Nat → Except (Option JSError) α × Nat
  | 0 => (.error lastError, count)
  | fuel + 1 =>
    match fn attempt with
    | .ok v => (.ok v, count + 1)
    | .error e =>
      if attempt == maxAttempts || !isRetryable e then
        (.error (some e), count + 1)
      else
        retryAux fn maxAttempts (attempt + 1) (some e) (count + 1) fuel

/-- `retryWithBackoff` of src/lib/error-handler.ts (lines 122-163): runs the
attempt loop from attempt 1 with `maxAttempts` iterations of fuel (the loop
condition is `attempt <= maxAttempts`), returning the final outcome together
with the number of invocations of the unit of work. -/
def retryWithBackoff {α : Type} (fn : Nat → Except JSError α)
    (maxAttempts : Nat := 3) : Except (Option JSError) α × Nat :=
  retryAux fn maxAttempts 1 none 0 maxAttempts

/-- Prefix test on character lists, used to embed JavaScript string search. -/
def isPrefixCL : List Char → List Char → Bool
  | [], _ => true
  | _ :: _, [] => false
  | a :: as, b :: bs => a == b && isPrefixCL as bs

/-- Substring test on character lists. -/
def hasSubCL (pat : List Char) : List Char → Bool
  | [] => pat.isEmpty
  | s@(_ :: rest) => isPrefixCL pat s || hasSubCL pat rest

/-- `message.includes(pat)` of JavaScript for the non-empty literal patterns
used by the classifier. -/
def strIncludes (s pat : String) : Bool := hasSubCL pat.data s.data

/-- `source.startsWith(pre)` of JavaScript. -/
def strStartsWith (s pre : String) : Bool := isPrefixCL pre.data s.data

/-- `message.toLowerCase()` for the ASCII keyword matching of the
classifier (the matched literals are all ASCII). -/
def lowerAscii (s : String) : String := String.mk (s.data.map Char.toLower)

/-- `parseGeminiError` of src/lib/error-handler.ts (lines 181-241): returns
an `MCPError` unchanged; otherwise matches lower-cased keywords against an
`Error`'s message in the source's order (file size, file type, rate limit,
authentication, store-not-found, network, generic API error), attaching the
original message and error name as details; a plain string becomes an
`UNKNOWN_ERROR` with that message; anything else becomes an `UNKNOWN_ERROR`
with a fixed message. -/
def parseGeminiError : JSError → MCPError
  | .mcp e => e
  | .err name msg =>
    let message := lowerAscii msg
    let details := some [("original_error", msg), ("name", name)]
    if strIncludes message "too large" || strIncludes message "file size" then
      { code := .FILE_TOO_LARGE, message := msg, retryable := false, details := details }
    else if strIncludes message "invalid file" || strIncludes message "unsupported" then
      { code := .INVALID_FILE_TYPE, message := msg, retryable := false, details := details }
    else if strIncludes message "rate limit" || strIncludes message "quota" then
      { code := .RATE_LIMITED, message := msg, retryable := true, details := details }
    else if strIncludes message "auth" || strIncludes message "unauthorized"
        || strIncludes message "api key" then
      { code := .AUTH_FAILED, message := msg, retryable := false, details := details }
    else if strIncludes message "store" && strIncludes message "not found" then
      { code := .STORE_NOT_FOUND, message := msg, retryable := false, details := details }
    else if strIncludes message "network" || strIncludes message "timeout"
        || strIncludes message "econnrefused" || strIncludes message "enotfound" then
      { code := .NETWORK_ERROR, message := msg, retryable := true, details := details }
    else
      { code := .API_ERROR, message := msg, retryable := true, details := details }
  | .str s => { code := .UNKNOWN_ERROR, message := s, retryable := false, details := none }
  | .objWithStatus _ =>
    { code := .UNKNOWN_ERROR, message := "Unknown error occurred", retryable := false,
      details := none }
  | .other =>
    { code := .UNKNOWN_ERROR, message := "Unknown error occurred", retryable := false,
      details := none }

/-- `handleErrors` of src/lib/error-handler.ts (lines 250-265) applied to an
already-computed outcome: failures are classified with `parseGeminiError`
and rethrown (the log line is not modelled). -/
def handleErrorsE {α : Type} : Except JSError α → Except MCPError α
  | .ok v => .ok v
  | .error e => .error (parseGeminiError e)

/-- Classification of the `throw lastError` fallthrough of `retryWithBackoff`
by the caller's `handleErrors`: an actual failure is classified; the
unreachable `undefined` rethrow is a value of no recognizable shape. -/
def parseOptJSError : Option JSError → MCPError
  | some e => parseGeminiError e
  | none => parseGeminiError .other

/-! ## src/lib/gemini-client.ts -/

/-- `DocumentMetadata` of src/lib/validators.ts (lines 16-25); every field
is optional. -/
structure DocumentMetadata where
  title : Option String := none
  authors : Option (List String) := none
  year : Option Int := none
  doi : Option String := none
  tags : Option (List String) := none
  deriving DecidableEq, Repr

/-- The empty metadata object `{}` used when `uploadDocument` is called
without metadata (src/lib/gemini-client.ts line 161). -/
def emptyMetadata : DocumentMetadata := {}

/-- `Document` of src/lib/validators.ts (lines 30-43). -/
structure Document where
  doc_id : String
  store_id : String
  file_name : String
  file_uri : String
  mime_type : String
  size_bytes : Nat
  created_at : String
  metadata : DocumentMetadata
  hash : String
  dedupe_key : String
  deriving DecidableEq, Repr

/-- `FileSearchStore` of src/lib/gemini-client.ts (lines 23-28). -/
structure FileSearchStore where
  name : String
  displayName : Option String := none
  createTime : Option String := none
  updateTime : Option String := none
  deriving DecidableEq, Repr

/-- A file descriptor returned by the remote Files API
(`listResponse.files[i]` / `uploadResponse.file`).  `sizeBytes` is a decimal
string on the wire, modelled by its numeric value. -/
structure RemoteFile where
  name : String
  uri : String
  displayName : Option String := none
  mimeType : Option String := none
  sizeBytes : Option Nat := none
  createTime : Option String := none
  deriving DecidableEq, Repr

/-- One remote request issued by the client, recorded in an explicit trace.
`listStores` and `createStore` are the collection-resolution requests;
`getStore` is the existence probe of `checkFileStoreExists`; `listFiles` and
`uploadFile` carry the 1-indexed attempt number of the surrounding retry
loop. -/
inductive NetCall where
  | listStores (pageSize : Nat)
  | createStore (displayName : Option String)
  | getStore (storeId : String)
  | listFiles (attempt : Nat)
  | uploadFile (attempt : Nat)
  | downloadFile (url : String)
  deriving DecidableEq, Repr

/-- The request is a collection-resolution request (listing the stores or
creating one). -/
def isResolutionCall : NetCall → Bool
  | .listStores _ => true
  | .createStore _ => true
  | _ => false

/-- The request is an explicit store-creation request. -/
def isCreateStoreCall : NetCall → Bool
  | .createStore _ => true
  | _ => false

/-- The mutable fields of `GeminiClient` (src/lib/gemini-client.ts lines
51-52): the memoized store id and the configured display name. -/
structure ClientState where
  storeId : Option String := none
  storeName : Option String := none
  deriving DecidableEq, Repr

/-- Everything outside the repository that a client operation consumes: the
remote service's responses, the clock, the temp directory issued by
`mkdtemp`, and the node:crypto SHA-256 digests.  HTTP error responses are
modelled as (status, statusText, body-text) triples. -/
structure World where
  listStoresResult : Except (Nat × String × String) (List FileSearchStore)
  createStoreResult : Except (Nat × String × String) String
  getStoreStatus : String → Nat
  getStoreStatusText : String → String
  getStoreErrorText : String → String
  listFilesOutcomes : Nat → Except JSError (List RemoteFile)
  uploadOutcomes : Nat → Except JSError RemoteFile
  fetchFile : String → Except (Nat × String) (List Nat × Option String)
  tempDir : String
  now : String
  nowMs : String
  sha256Bytes : List Nat → String
  sha256Str : String → String

instance {ε α : Type} [DecidableEq ε] [DecidableEq α] : DecidableEq (Except ε α) := fun x y =>
  match x, y with
  | .ok a, .ok b =>
    if h : a = b then isTrue (by rw [h]) else isFalse (fun hh => h (Except.ok.inj hh))
  | .error a, .error b =>
    if h : a = b then isTrue (by rw [h]) else isFalse (fun hh => h (Except.error.inj hh))
  | .ok _, .error _ => isFalse (fun hh => Except.noConfusion hh)
  | .error _, .ok _ => isFalse (fun hh => Except.noConfusion hh)

/-- The outcome of one client operation: the client state it leaves behind
(TypeScript mutations persist even when the operation throws), the trace of
remote requests it issued, and its result or thrown `MCPError`. -/
structure OpResult (α : Type) where
  state : ClientState
  calls : List NetCall
  result : Except MCPError α
  deriving DecidableEq, Repr

/-- `calculateFileHash` of src/lib/gemini-client.ts (lines 275-278): the
SHA-256 hex digest of the file's bytes, with the digest function supplied
as a parameter (node:crypto is external to the repository). -/
def calculateFileHash (sha256Bytes : List Nat → String) (content : List Nat) : String :=
  sha256Bytes content

/-- JSON string escaping as performed by `JSON.stringify` on the metadata
fields (quote, backslash and common control characters). -/
def jsonEscapeChar (c : Char) : List Char :=
  if c == '"' then ['\\', '"']
  else if c == '\\' then ['\\', '\\']
  else if c == '\n' then ['\\', 'n']
  else if c == '\r' then ['\\', 'r']
  else if c == '\t' then ['\\', 't']
  else [c]

/-- A JSON string literal for `s`. -/
def jsonQuote (s : String) : String :=
  "\"" ++ String.mk (s.data.flatMap jsonEscapeChar) ++ "\""

/-- `JSON.stringify({title: metadata.title, doi: metadata.doi})` as used by
`generateDedupeKey` (src/lib/gemini-client.ts lines 285-290): `undefined`
properties are omitted by `JSON.stringify`, so only the present fields
appear, in the object-literal order title-then-doi. -/
def stringifyTitleDoi (m : DocumentMetadata) : String :=
  match m.title, m.doi with
  | none, none => "\x7b\x7d"
  | some t, none => "\x7b\"title\":" ++ jsonQuote t ++ "\x7d"
  | none, some d => "\x7b\"doi\":" ++ jsonQuote d ++ "\x7d"
  | some t, some d =>
    "\x7b\"title\":" ++ jsonQuote t ++ ",\"doi\":" ++ jsonQuote d ++ "\x7d"

/-- The string fed to the dedupe digest: the content hash concatenated with
the metadata serialization, where an absent metadata object contributes the
empty string (src/lib/gemini-client.ts lines 285-294). -/
def dedupeInput (hash : String) (metadata : Option DocumentMetadata) : String :=
  hash ++ (match metadata with
    | some m => stringifyTitleDoi m
    | none => "")

/-- `generateDedupeKey` of src/lib/gemini-client.ts (lines 283-296): the
SHA-256 hex digest of `dedupeInput`, with the digest function supplied as a
parameter. -/
def generateDedupeKey (sha256Str : String → String) (hash : String)
    (metadata : Option DocumentMetadata) : String :=
  sha256Str (dedupeInput hash metadata)

/-- The last path segment of a character list (segments are reset at each
slash). -/
def lastSegmentCL : List Char → List Char → List Char
  | [], acc => acc.reverse
  | c :: rest, acc =>
    if c == '/' then lastSegmentCL rest []
    else lastSegmentCL rest (c :: acc)

/-- `path.basename` of Node for the paths handled here: trailing slashes are
dropped, then the last slash-separated segment is returned. -/
def basename (p : String) : String :=
  let stripped := (p.data.reverse.dropWhile (fun c => c == '/')).reverse
  String.mk (lastSegmentCL stripped [])

/-- The characters after the last dot of the list, when a dot exists. -/
def extAfterDotCL : List Char → Option (List Char)
  | [] => none
  | c :: rest =>
    match extAfterDotCL rest with
    | some e => some e
    | none => if c == '.' then some rest else none

/-- `path.extname` of Node on a basename: the suffix from the last dot,
except that a dot at position 0 (a dotfile) yields no extension. -/
def extname (fileName : String) : String :=
  match fileName.data with
  | [] => ""
  | _ :: rest =>
    match extAfterDotCL rest with
    | some e => String.mk ('.' :: e)
    | none => ""

/-- The extension-to-MIME map of `getMimeType` (src/lib/gemini-client.ts
lines 260-267). -/
def extMap : List (String × String) :=
  [(".pdf", "application/pdf"),
   (".docx", "application/vnd.openxmlformats-officedocument.wordprocessingml.document"),
   (".doc", "application/msword"),
   (".txt", "text/plain"),
   (".md", "text/markdown"),
   (".json", "application/json")]

/-- `getMimeType` of src/lib/gemini-client.ts (lines 257-270). -/
def getMimeType (fileName : String) : String :=
  let ext := lowerAscii (extname fileName)
  ((extMap.find? (fun p => p.1 == ext)).map Prod.snd).getD "application/octet-stream"

/-- The MIME-to-extension map of `getExtensionFromMimeType`
(src/lib/gemini-client.ts lines 242-249). -/
def mimeMap : List (String × String) :=
  [("application/pdf", "pdf"),
   ("application/vnd.openxmlformats-officedocument.wordprocessingml.document", "docx"),
   ("application/msword", "doc"),
   ("text/plain", "txt"),
   ("text/markdown", "md"),
   ("application/json", "json")]

/-- `getExtensionFromMimeType` of src/lib/gemini-client.ts (lines 239-252). -/
def getExtensionFromMimeType (mimeType : Option String) : String :=
  match mimeType with
  | none => "bin"
  | some mt => ((mimeMap.find? (fun p => p.1 == mt)).map Prod.snd).getD "bin"

/-- `new URL(url).pathname`, approximated for the http(s) URLs handled here:
the portion of the URL after the host, up to any query or fragment. -/
def urlPathname (url : String) : String :=
  let afterScheme := ((url.splitOn "://").get? 1).getD ""
  let pathOn := afterScheme.data.dropWhile (fun c => c != '/')
  String.mk (pathOn.takeWhile (fun c => c != '?' && c != '#'))

/-- `extractFileName` of src/lib/gemini-client.ts (lines 223-234): the
basename of the URL path when non-trivial, otherwise a generated name from
the current milliseconds and the content type. -/
def extractFileName (nowMs : String) (url : String) (contentType : Option String) : String :=
  let fileNameFromUrl := basename (urlPathname url)
  if fileNameFromUrl != "" && fileNameFromUrl != "/" then fileNameFromUrl
  else "download_" ++ nowMs ++ "." ++ getExtensionFromMimeType contentType

/-- The `DOWNLOAD_FAILED` error thrown by `downloadFile` on a non-ok
response (src/lib/gemini-client.ts lines 194-198). -/
def downloadFailedError (status : Nat) (statusText : String) : MCPError :=
  { code := .DOWNLOAD_FAILED,
    message := "Failed to download file: " ++ toString status ++ " " ++ statusText,
    retryable := false, details := none }

/-- `downloadFile` of src/lib/gemini-client.ts (lines 188-218): fetches the
URL (one remote request); a non-ok response throws `DOWNLOAD_FAILED`;
otherwise the bytes are written to a temp path built from the `mkdtemp`
directory and the extracted file name, and that path is returned together
with the bytes stored there. -/
def downloadFile (world : World) (url : String) :
    Except MCPError (String × List Nat) × List NetCall :=
  match world.fetchFile url with
  | .error (status, statusText) =>
    (.error (downloadFailedError status statusText), [.downloadFile url])
  | .ok (bytes, contentType) =>
    let fileName := extractFileName world.nowMs url contentType
    (.ok (world.tempDir ++ "/" ++ fileName, bytes), [.downloadFile url])

/-- The `FILE_NOT_FOUND` error thrown by `ensureLocalFile` for a missing
local file (src/lib/gemini-client.ts line 181). -/
def fileNotFoundError (source : String) : MCPError :=
  { code := .FILE_NOT_FOUND, message := "File not found: " ++ source,
    retryable := false, details := none }

/-- `ensureLocalFile` of src/lib/gemini-client.ts (lines 171-183): http(s)
sources are downloaded; otherwise the local filesystem (`fsys`, mapping a
path to its bytes when the file exists) is consulted and a missing file
throws a non-retryable `FILE_NOT_FOUND`.  The returned bytes are the file
content later read by `calculateFileHash`. -/
def ensureLocalFile (world : World) (fsys : String → Option (List Nat)) (source : String) :
    Except MCPError (String × List Nat) × List NetCall :=
  if strStartsWith source "http://" || strStartsWith source "https://" then
    downloadFile world source
  else
    match fsys source with
    | some bytes => (.ok (source, bytes), [])
    | none => (.error (fileNotFoundError source), [])

/-- The retryable `API_ERROR` thrown by `listFileStores` on a non-ok
response (src/lib/gemini-client.ts lines 767-774). -/
def listStoresFailedError (status : Nat) (statusText errorText : String) : MCPError :=
  { code := .API_ERROR,
    message := "Failed to list File Stores: " ++ toString status ++ " "
      ++ statusText ++ " - " ++ errorText,
    retryable := true, details := none }

/-- `listFileStores` of src/lib/gemini-client.ts (lines 754-783): one GET of
the store collection; a non-ok response throws a retryable `API_ERROR`
built from the status line and body. -/
def listFileStores (world : World) (pageSize : Nat) :
    Except MCPError (List FileSearchStore) × List NetCall :=
  match world.listStoresResult with
  | .ok stores => (.ok stores, [.listStores pageSize])
  | .error (status, statusText, errorText) =>
    (.error (listStoresFailedError status statusText errorText), [.listStores pageSize])

/-- The non-retryable `API_ERROR` thrown by `createFileStore` when the
creation POST returns a non-ok response (src/lib/gemini-client.ts lines
654-661). -/
def createStoreFailedError (status : Nat) (statusText errorText : String) : MCPError :=
  { code := .API_ERROR,
    message := "Failed to create File Store: " ++ toString status ++ " "
      ++ statusText ++ " - " ++ errorText,
    retryable := false, details := none }

/-- The POST that creates a store (src/lib/gemini-client.ts lines 643-674):
on success the new store id is memoized into `storeId`; a non-ok response
throws a non-retryable `API_ERROR`. -/
def createStoreRequest (world : World) (s : ClientState) (displayName : Option String) :
    OpResult String :=
  match world.createStoreResult with
  | .ok storeId =>
    { state := { s with storeId := some storeId }, calls := [.createStore displayName],
      result := .ok storeId }
  | .error (status, statusText, errorText) =>
    { state := s, calls := [.createStore displayName],
      result := .error (createStoreFailedError status statusText errorText) }

/-- The non-retryable `API_ERROR` thrown by `createFileStore` on a
display-name collision (src/lib/gemini-client.ts lines 635-640): the
existing store's id appears in the message; no details map is attached. -/
def alreadyExistsError (dn existingId : String) : MCPError :=
  { code := .API_ERROR,
    message := "A File Store with display name \"" ++ dn
      ++ "\" already exists (ID: " ++ existingId
      ++ "). Use a different name or use the existing store.",
    retryable := false, details := none }

/-- `createFileStore` of src/lib/gemini-client.ts (lines 625-676): when a
display name is given, the stores are listed first and an exact
`displayName` collision throws a non-retryable `API_ERROR` whose message
carries the existing store's id (no details map is attached) without
issuing the creation request; otherwise the creation request is issued. -/
def createFileStore (world : World) (s : ClientState) (displayName : Option String) :
    OpResult String :=
  match displayName with
  | some dn =>
    match listFileStores world 20 with
    | (.error e, t) => { state := s, calls := t, result := .error e }
    | (.ok stores, t) =>
      match stores.find? (fun st => st.displayName == some dn) with
      | some existingStore =>
        { state := s, calls := t,
          result := .error (alreadyExistsError dn existingStore.name) }
      | none =>
        match createStoreRequest world s (some dn) with
        | ⟨s2, t2, res⟩ => ⟨s2, t ++ t2, res⟩
  | none => createStoreRequest world s none

/-- `resolveStoreByDisplayName` of src/lib/gemini-client.ts (lines 595-617):
lists the stores, returns the id of an exact display-name match, and
otherwise delegates to `createFileStore` (which lists again for its own
duplicate check and then creates). -/
def resolveStoreByDisplayName (world : World) (s : ClientState) (displayName : String) :
    OpResult String :=
  match listFileStores world 20 with
  | (.error e, t) => { state := s, calls := t, result := .error e }
  | (.ok stores, t) =>
    match stores.find? (fun st => st.displayName == some displayName) with
    | some matchingStore => { state := s, calls := t, result := .ok matchingStore.name }
    | none =>
      match createFileStore world s (some displayName) with
      | ⟨s2, t2, res⟩ => ⟨s2, t ++ t2, res⟩

/-- The non-retryable `STORE_NOT_FOUND` thrown by `uploadDocument` and
`ensureFileStore` when no store name is configured
(src/lib/gemini-client.ts lines 84-88 and 724-728). -/
def storeNotConfiguredError : MCPError :=
  { code := .STORE_NOT_FOUND,
    message := "File Store name is not configured. Set GEMINI_FILESTORE_NAME environment variable.",
    retryable := false, details := none }

/-- The memoization guard shared by `uploadDocument` (src/lib/gemini-client.ts
lines 82-96) and `ensureFileStore` (lines 722-736): a cached `storeId` is
returned with no remote request; otherwise a missing configured name throws
a non-retryable `STORE_NOT_FOUND`, and an existing name is resolved with
`resolveStoreByDisplayName` and the result is memoized into `storeId`. -/
def resolveStoreIfNeeded (world : World) (s : ClientState) : OpResult String :=
  match s.storeId with
  | some id => { state := s, calls := [], result := .ok id }
  | none =>
    match s.storeName with
    | none => { state := s, calls := [], result := .error storeNotConfiguredError }
    | some nm =>
      match resolveStoreByDisplayName world s nm with
      | ⟨s2, t2, .ok id⟩ =>
        { state := { s2 with storeId := some id }, calls := t2, result := .ok id }
      | ⟨s2, t2, .error e⟩ => { state := s2, calls := t2, result := .error e }

/-- The retryable `API_ERROR` thrown by `checkFileStoreExists` on a non-ok,
non-404 response (src/lib/gemini-client.ts lines 701-708). -/
def checkStoreFailedError (status : Nat) (statusText errorText : String) : MCPError :=
  { code := .API_ERROR,
    message := "Failed to check File Store: " ++ toString status ++ " "
      ++ statusText ++ " - " ++ errorText,
    retryable := true, details := none }

/-- `checkFileStoreExists` of src/lib/gemini-client.ts (lines 684-713): one
GET of the store; 404 yields `false`, another non-ok status (outside
200-299) throws a retryable `API_ERROR`, an ok status yields `true`. -/
def checkFileStoreExists (world : World) (storeId : String) :
    Except MCPError Bool × List NetCall :=
  if world.getStoreStatus storeId == 404 then (.ok false, [.getStore storeId])
  else if 200 ≤ world.getStoreStatus storeId && world.getStoreStatus storeId < 300 then
    (.ok true, [.getStore storeId])
  else
    (.error (checkStoreFailedError (world.getStoreStatus storeId)
      (world.getStoreStatusText storeId) (world.getStoreErrorText storeId)),
     [.getStore storeId])

/-- The non-retryable `STORE_NOT_FOUND` thrown by `ensureFileStore` when
the resolved store no longer exists (src/lib/gemini-client.ts lines
740-744). -/
def storeVanishedError (id : String) : MCPError :=
  { code := .STORE_NOT_FOUND,
    message := "File Store not found: " ++ id
      ++ ". This should not happen if resolveStoreByDisplayName worked correctly.",
    retryable := false, details := none }

/-- `ensureFileStore` of src/lib/gemini-client.ts (lines 721-746): resolves
the store id if not cached (memoizing it), then probes the store's
existence; a vanished store throws a non-retryable `STORE_NOT_FOUND`. -/
def ensureFileStore (world : World) (s : ClientState) : OpResult Unit :=
  match resolveStoreIfNeeded world s with
  | ⟨s1, t1, .error e⟩ => { state := s1, calls := t1, result := .error e }
  | ⟨s1, t1, .ok id⟩ =>
    match checkFileStoreExists world id with
    | (.error e, t2) => { state := s1, calls := t1 ++ t2, result := .error e }
    | (.ok true, t2) => { state := s1, calls := t1 ++ t2, result := .ok () }
    | (.ok false, t2) =>
      { state := s1, calls := t1 ++ t2, result := .error (storeVanishedError id) }

/-- The upload requests issued by `n` invocations of the unit of work inside
the retry loop of `uploadDocument`. -/
def uploadCalls (n : Nat) : List NetCall :=
  (List.range n).map (fun i => .uploadFile (i + 1))

/-- `uploadDocument` of src/lib/gemini-client.ts (lines 77-166): resolve the
store id if not cached; obtain a local file (downloading a URL source);
hash the bytes and derive the dedupe key; read the size; upload with
`retryWithBackoff` (maxAttempts 3), classifying a final failure through the
surrounding `handleErrors`; and assemble the `Document` (temp-file cleanup
for URL sources is fire-and-forget and not modelled). -/
def uploadDocument (world : World) (fsys : String → Option (List Nat)) (s : ClientState)
    (source : String) (metadata : Option DocumentMetadata) : OpResult Document :=
  match resolveStoreIfNeeded world s with
  | ⟨s1, t1, .error e⟩ => { state := s1, calls := t1, result := .error e }
  | ⟨s1, t1, .ok id⟩ =>
    match ensureLocalFile world fsys source with
    | (.error e, t2) =>
      { state := s1, calls := t1 ++ t2, result := .error e }
    | (.ok (localPath, content), t2) =>
      let fileName := basename localPath
      let hash := calculateFileHash world.sha256Bytes content
      let dedupeKey := generateDedupeKey world.sha256Str hash metadata
      let sizeBytes := content.length
      match retryWithBackoff world.uploadOutcomes 3 with
      | (.error e, n) =>
        { state := s1, calls := t1 ++ t2 ++ uploadCalls n,
          result := .error (parseOptJSError e) }
      | (.ok uf, n) =>
        { state := s1, calls := t1 ++ t2 ++ uploadCalls n,
          result := .ok {
            doc_id := uf.name, store_id := id, file_name := fileName,
            file_uri := uf.uri, mime_type := uf.mimeType.getD (getMimeType fileName),
            size_bytes := sizeBytes, created_at := world.now,
            metadata := metadata.getD emptyMetadata,
            hash := hash, dedupe_key := dedupeKey } }

/-- The conversion of one remote file descriptor to a `Document` performed
by `listDocuments` (src/lib/gemini-client.ts lines 493-505). -/
def fileToDocument (storeId : Option String) (now : String) (f : RemoteFile) : Document :=
  { doc_id := f.name,
    store_id := storeId.getD "unknown",
    file_name := f.displayName.getD (basename f.uri),
    file_uri := f.uri,
    mime_type := f.mimeType.getD "application/octet-stream",
    size_bytes := f.sizeBytes.getD 0,
    created_at := f.createTime.getD now,
    metadata := emptyMetadata,
    hash := "",
    dedupe_key := "" }

/-- The optional filters of `listDocuments`; the source accepts them but
applies none (src/lib/gemini-client.ts lines 507-511). -/
structure ListFilters where
  year_min : Option Int := none
  year_max : Option Int := none
  tags : Option (List String) := none
  authors : Option (List String) := none
  deriving DecidableEq, Repr

/-- `listDocuments` of src/lib/gemini-client.ts (lines 467-533): fetch the
file list with `retryWithBackoff` (classifying a final failure through
`handleErrors`), convert every file to a `Document` (filters are accepted
but not applied), then return the slice `[(page-1)*pageSize,
(page-1)*pageSize + pageSize)` together with the total count of the full
converted list. -/
def listDocuments (world : World) (s : ClientState) (page pageSize : Nat)
    (_filters : Option ListFilters) : OpResult (List Document × Nat) :=
  match retryWithBackoff world.listFilesOutcomes 3 with
  | (.error e, n) =>
    { state := s, calls := (List.range n).map (fun i => .listFiles (i + 1)),
      result := .error (parseOptJSError e) }
  | (.ok files, n) =>
    let allDocuments := files.map (fileToDocument s.storeId world.now)
    let totalCount := allDocuments.length
    let startIdx := (page - 1) * pageSize
    let documents := (allDocuments.drop startIdx).take pageSize
    { state := s, calls := (List.range n).map (fun i => .listFiles (i + 1)),
      result := .ok (documents, totalCount) }

/-! ## Concrete values used by the closed theorems -/

/-- Whether a failure value is already a classified error (`MCPError`). -/
def isClassified : JSError → Bool
  | .mcp _ => true
  | _ => false

/-- A classified error whose `retryable` flag is `false` but whose code is in
`RETRYABLE_ERROR_CODES`. -/
def apiErrFlagFalse : MCPError :=
  { code := .API_ERROR, message := "api down", retryable := false, details := none }

/-- A unit of work that always fails with `apiErrFlagFalse`. -/
def fnApiErr : Nat → Except JSError Nat := fun _ => .error (.mcp apiErrFlagFalse)

/-- A classified error that is non-retryable under `isRetryable`. -/
def notFoundErr : MCPError :=
  { code := .FILE_NOT_FOUND, message := "Not found", retryable := false, details := none }

/-- A unit of work that always fails with `notFoundErr`. -/
def fnNotFound : Nat → Except JSError Nat := fun _ => .error (.mcp notFoundErr)

/-- A retryable classified error. -/
def rateLimitedErr : MCPError :=
  { code := .RATE_LIMITED, message := "Rate limited", retryable := true, details := none }

/-- A unit of work that always fails with `rateLimitedErr`. -/
def fnRateLimited : Nat → Except JSError Nat := fun _ => .error (.mcp rateLimitedErr)

/-- A unit of work that always fails with a raw status-500 object, which
`isRetryable` treats as retryable although it is not a classified error. -/
def fnStatus500 : Nat → Except JSError Nat := fun _ => .error (.objWithStatus 500)

/-- A remote store whose display name is "papers". -/
def storeAbc : FileSearchStore :=
  { name := "fileSearchStores/abc", displayName := some "papers" }

/-- A remote store whose display name is "existing-name". -/
def storeExisting : FileSearchStore :=
  { name := "fileSearchStores/abc", displayName := some "existing-name" }

/-- Three remote file descriptors for the pagination theorems. -/
def rfA : RemoteFile :=
  { name := "files/a", uri := "https://files/a", displayName := some "a.pdf",
    mimeType := some "application/pdf", sizeBytes := some 10,
    createTime := some "2026-01-01T00:00:00Z" }

def rfB : RemoteFile :=
  { name := "files/b", uri := "https://files/b", displayName := some "b.pdf",
    mimeType := some "application/pdf", sizeBytes := some 20,
    createTime := some "2026-01-02T00:00:00Z" }

def rfC : RemoteFile :=
  { name := "files/c", uri := "https://files/c", displayName := some "c.pdf",
    mimeType := some "application/pdf", sizeBytes := some 30,
    createTime := some "2026-01-03T00:00:00Z" }

/-- A world in which the store "papers" exists remotely and every other
endpoint answers trivially. -/
def worldA : World :=
  { listStoresResult := .ok [storeAbc],
    createStoreResult := .ok "fileSearchStores/new",
    getStoreStatus := fun _ => 200,
    getStoreStatusText := fun _ => "OK",
    getStoreErrorText := fun _ => "",
    listFilesOutcomes := fun _ => .ok [],
    uploadOutcomes := fun _ => .error .other,
    fetchFile := fun _ => .error (500, "Internal Server Error"),
    tempDir := "/tmp/mcp-gemini-x",
    now := "2026-01-01T00:00:00.000Z",
    nowMs := "0",
    sha256Bytes := fun _ => "",
    sha256Str := fun _ => "" }

/-- A world whose store listing fails, used to show that a memoized client
never re-issues the listing. -/
def worldDown : World := { worldA with listStoresResult := .error (500, "Internal", "boom") }

/-- A world in which a store named "existing-name" already exists. -/
def worldExisting : World := { worldA with listStoresResult := .ok [storeExisting] }

/-- A world whose file listing returns three files on the first attempt. -/
def worldFiles : World := { worldA with listFilesOutcomes := fun _ => .ok [rfA, rfB, rfC] }

/-- A client that has not resolved its store yet, configured with the
display name "papers". -/
def sFresh : ClientState := { storeId := none, storeName := some "papers" }

/-- The client after "papers" has been resolved to its remote id. -/
def sCached : ClientState :=
  { storeId := some "fileSearchStores/abc", storeName := some "papers" }

/-- An empty local filesystem. -/
def noFsys : String → Option (List Nat) := fun _ => none

/-- Metadata pairs that agree on title and doi and differ only in tags. -/
def metaT1 : DocumentMetadata :=
  { title := some "A", doi := some "X", tags := some ["t1"] }

def metaT2 : DocumentMetadata :=
  { title := some "A", doi := some "X", tags := some ["t2"] }

/-! ## Claim theorems -/

/-- C1 (counterexample): `apiErrFlagFalse` is a ClassifiedError with
`retryable == false`, yet `retryWithBackoff` invokes a unit of work that
always fails with it 3 times, not once: `isRetryable` also consults
`RETRYABLE_ERROR_CODES`, and `API_ERROR` is in that set. -/
theorem c1_counterexample_flag_false_still_retried :
    apiErrFlagFalse.retryable = false ∧
    (retryWithBackoff fnApiErr 3).2 = 3 ∧
    (retryWithBackoff fnApiErr 3).2 ≠ 1 := by
  refine ⟨by decide, by decide, by decide⟩

/-- C1 (amended): for every unit of work whose first failure is a
ClassifiedError that is non-retryable under `isRetryable` (its `retryable`
flag is false AND its code is outside `RETRYABLE_ERROR_CODES`),
`retryWithBackoff` invokes the unit of work exactly once and propagates
that failure, regardless of `maxAttempts` (≥ 1). -/
theorem c1_nonretryable_invoked_once {α : Type}
    (fn : Nat → Except JSError α) (e : MCPError) (maxAttempts : Nat)
    (hmax : 1 ≤ maxAttempts) (hfn : fn 1 = .error (.mcp e))
    (hret : isRetryable (.mcp e) = false) :
    retryWithBackoff fn maxAttempts = (.error (some (.mcp e)), 1) := by
  obtain ⟨m, rfl⟩ : ∃ m, maxAttempts = m + 1 := ⟨maxAttempts - 1, by omega⟩
  simp [retryWithBackoff, retryAux, hfn, hret]

/-- C1 (witness): the amended theorem at a concrete non-retryable failure
and `maxAttempts = 3`. -/
theorem c1_nonretryable_invoked_once_witness :
    (1 ≤ 3 ∧ fnNotFound 1 = .error (.mcp notFoundErr) ∧
      isRetryable (.mcp notFoundErr) = false) ∧
    retryWithBackoff fnNotFound 3 = (.error (some (.mcp notFoundErr)), 1) :=
  ⟨⟨by decide, rfl, by decide⟩,
   c1_nonretryable_invoked_once fnNotFound notFoundErr 3 (by decide) rfl (by decide)⟩

/-- C2 (counterexample): a unit of work that always fails with a raw
status-500 object (retryable under `isRetryable`) is invoked 3 times, but
`retryWithBackoff` propagates the raw failure value, which is not a
ClassifiedError. -/
theorem c2_counterexample_raw_failure_propagated :
    isRetryable (.objWithStatus 500) = true ∧
    retryWithBackoff fnStatus500 3 = (.error (some (.objWithStatus 500)), 3) ∧
    isClassified (.objWithStatus 500) = false := by
  refine ⟨by decide, by decide, by decide⟩

/-- C2 (amended): for every unit of work that fails with a retryable
ClassifiedError on every attempt, `retryWithBackoff` with `maxAttempts = 3`
invokes the unit of work exactly 3 times and propagates the final attempt's
failure value; because that value is already a ClassifiedError it equals
its own classification (`retryWithBackoff` itself rethrows the raw failure,
so a non-ClassifiedError failure would be propagated unclassified). -/
theorem c2_retryable_three_attempts {α : Type}
    (fn : Nat → Except JSError α) (es : Nat → MCPError)
    (hfn : ∀ k, fn k = .error (.mcp (es k)))
    (hret : ∀ k, isRetryable (.mcp (es k)) = true) :
    retryWithBackoff fn 3 = (.error (some (.mcp (es 3))), 3) ∧
    parseGeminiError (.mcp (es 3)) = es 3 := by
  refine ⟨?_, rfl⟩
  simp [retryWithBackoff, retryAux, hfn 1, hfn 2, hfn 3, hret 1, hret 2]

/-- C2 (witness): the amended theorem at a concrete always-failing
retryable ClassifiedError. -/
theorem c2_retryable_three_attempts_witness :
    ((∀ k : Nat, fnRateLimited k = .error (.mcp rateLimitedErr)) ∧
      (∀ _k : Nat, isRetryable (.mcp rateLimitedErr) = true)) ∧
    retryWithBackoff fnRateLimited 3 = (.error (some (.mcp rateLimitedErr)), 3) ∧
    parseGeminiError (.mcp rateLimitedErr) = rateLimitedErr :=
  ⟨⟨fun _ => rfl, fun (_ : Nat) => rfl⟩,
   c2_retryable_three_attempts fnRateLimited (fun _ => rateLimitedErr)
     (fun _ => rfl) (fun (_ : Nat) => rfl)⟩

/-- C7 (counterexample): the message "File size quota exceeded" contains
"quota" (case-insensitively), yet `parseGeminiError` classifies it as
`FILE_TOO_LARGE`, not `RATE_LIMITED`: the file-size keywords are matched
before the rate-limit keywords. -/
theorem c7_counterexample_quota_beaten_by_file_size :
    strIncludes (lowerAscii "File size quota exceeded") "quota" = true ∧
    (parseGeminiError (.err "Error" "File size quota exceeded")).code = .FILE_TOO_LARGE ∧
    (parseGeminiError (.err "Error" "File size quota exceeded")).code ≠ .RATE_LIMITED := by
  refine ⟨by decide, by decide, by decide⟩

/-- C7 (amended): for every failure message that contains "rate limit" or
"quota" (case-insensitive) and contains none of the higher-priority
keywords ("too large", "file size", "invalid file", "unsupported"),
`parseGeminiError` returns a `RATE_LIMITED` error with `retryable == true`
carrying the original message. -/
theorem c7_rate_limit_classified (name msg : String)
    (h1 : strIncludes (lowerAscii msg) "too large" = false)
    (h2 : strIncludes (lowerAscii msg) "file size" = false)
    (h3 : strIncludes (lowerAscii msg) "invalid file" = false)
    (h4 : strIncludes (lowerAscii msg) "unsupported" = false)
    (h5 : (strIncludes (lowerAscii msg) "rate limit"
      || strIncludes (lowerAscii msg) "quota") = true) :
    parseGeminiError (.err name msg) =
      { code := .RATE_LIMITED, message := msg, retryable := true,
        details := some [("original_error", msg), ("name", name)] } := by
  simp [parseGeminiError, h1, h2, h3, h4, h5]

/-- C7 (witness): the amended theorem on the concrete message "Rate limit
exceeded". -/
theorem c7_rate_limit_classified_witness :
    (strIncludes (lowerAscii "Rate limit exceeded") "too large" = false ∧
      strIncludes (lowerAscii "Rate limit exceeded") "file size" = false ∧
      strIncludes (lowerAscii "Rate limit exceeded") "invalid file" = false ∧
      strIncludes (lowerAscii "Rate limit exceeded") "unsupported" = false ∧
      (strIncludes (lowerAscii "Rate limit exceeded") "rate limit"
        || strIncludes (lowerAscii "Rate limit exceeded") "quota") = true) ∧
    parseGeminiError (.err "Error" "Rate limit exceeded") =
      { code := .RATE_LIMITED, message := "Rate limit exceeded", retryable := true,
        details := some [("original_error", "Rate limit exceeded"), ("name", "Error")] } :=
  ⟨⟨by decide, by decide, by decide, by decide, by decide⟩,
   c7_rate_limit_classified "Error" "Rate limit exceeded"
     (by decide) (by decide) (by decide) (by decide) (by decide)⟩

/-- C8: classification is idempotent: a value that is already a
ClassifiedError is returned unchanged by `parseGeminiError` (never
re-wrapped), and therefore classifying a classification is the
classification itself, for every input. -/
theorem c8_classification_idempotent :
    (∀ e : MCPError, parseGeminiError (.mcp e) = e) ∧
    (∀ x : JSError, parseGeminiError (.mcp (parseGeminiError x)) = parseGeminiError x) :=
  ⟨fun _ => rfl, fun _ => rfl⟩

/-- The creation POST issues exactly one `createStore` request. -/
theorem createStoreRequest_calls (world : World) (s : ClientState) (dn : Option String) :
    (createStoreRequest world s dn).calls = [.createStore dn] := by
  unfold createStoreRequest; split <;> rfl

/-- Every request issued by `createFileStore` is a resolution request. -/
theorem createFileStore_calls_resolution (world : World) (s : ClientState)
    (dn : Option String) :
    (createFileStore world s dn).calls.all isResolutionCall = true := by
  cases dn with
  | none =>
    rcases hcr : world.createStoreResult with st | sid <;>
      simp [createFileStore, createStoreRequest, hcr, isResolutionCall]
  | some dn =>
    rcases hls : world.listStoresResult with st | stores
    · simp [createFileStore, listFileStores, hls, isResolutionCall]
    · rcases hf : stores.find? (fun st => st.displayName == some dn) with _ | ex
      · rcases hcr : world.createStoreResult with st | sid <;>
          simp [createFileStore, listFileStores, createStoreRequest, hls, hf, hcr,
            isResolutionCall]
      · simp [createFileStore, listFileStores, hls, hf, isResolutionCall]

/-- Every request issued by `resolveStoreByDisplayName` is a resolution
request. -/
theorem resolveStoreByDisplayName_calls_resolution (world : World) (s : ClientState)
    (nm : String) :
    (resolveStoreByDisplayName world s nm).calls.all isResolutionCall = true := by
  rcases hls : world.listStoresResult with st | stores
  · simp [resolveStoreByDisplayName, listFileStores, hls, isResolutionCall]
  · rcases hf : stores.find? (fun st => st.displayName == some nm) with _ | ex
    · have h3 := createFileStore_calls_resolution world s (some nm)
      rcases hcf : createFileStore world s (some nm) with ⟨s2, t2, res⟩
      rw [hcf] at h3
      have h4 : t2.all isResolutionCall = true := by simpa using h3
      simp [resolveStoreByDisplayName, listFileStores, hls, hf, hcf, isResolutionCall, h4]
    · simp [resolveStoreByDisplayName, listFileStores, hls, hf, isResolutionCall]

/-- Every request issued by the memoization guard is a resolution request. -/
theorem resolveStoreIfNeeded_calls_resolution (world : World) (s : ClientState) :
    (resolveStoreIfNeeded world s).calls.all isResolutionCall = true := by
  rcases hs : s.storeId with _ | id
  · rcases hn : s.storeName with _ | nm
    · simp [resolveStoreIfNeeded, hs, hn]
    · have h3 := resolveStoreByDisplayName_calls_resolution world s nm
      rcases hr : resolveStoreByDisplayName world s nm with ⟨s2, t2, res⟩
      rw [hr] at h3
      have h4 : t2.all isResolutionCall = true := by simpa using h3
      rcases res with e | id <;> simp [resolveStoreIfNeeded, hs, hn, hr, h4]
  · simp [resolveStoreIfNeeded, hs]

/-- A successful pass through the memoization guard leaves the resolved id
cached in `storeId`. -/
theorem resolveStoreIfNeeded_success_memoized (world : World) (s s' : ClientState)
    (t : List NetCall) (id : String)
    (h : resolveStoreIfNeeded world s = ⟨s', t, .ok id⟩) :
    s'.storeId = some id := by
  rcases hs : s.storeId with _ | i
  · rcases hn : s.storeName with _ | nm
    · simp [resolveStoreIfNeeded, hs, hn] at h
    · rcases hr : resolveStoreByDisplayName world s nm with ⟨s2, t2, res⟩
      rcases res with e | rid
      · simp [resolveStoreIfNeeded, hs, hn, hr] at h
      · simp [resolveStoreIfNeeded, hs, hn, hr] at h
        obtain ⟨rfl, -, rfl⟩ := h
        rfl
  · simp [resolveStoreIfNeeded, hs] at h
    obtain ⟨rfl, -, rfl⟩ := h
    exact hs

/-- With a cached `storeId` the memoization guard answers immediately and
issues no remote request. -/
theorem resolveStoreIfNeeded_cached (world : World) (s : ClientState) (id : String)
    (h : s.storeId = some id) :
    resolveStoreIfNeeded world s = ⟨s, [], .ok id⟩ := by
  simp [resolveStoreIfNeeded, h]

/-- Upload attempts are not resolution requests. -/
theorem uploadCalls_not_resolution (n : Nat) :
    (uploadCalls n).all (fun c => !isResolutionCall c) = true := by
  simp [uploadCalls, List.all_eq_true, isResolutionCall]

/-- `ensureLocalFile` issues no resolution request. -/
theorem ensureLocalFile_calls_not_resolution (world : World)
    (fsys : String → Option (List Nat)) (source : String) :
    ((ensureLocalFile world fsys source).2).all (fun c => !isResolutionCall c) = true := by
  unfold ensureLocalFile downloadFile
  split
  · split <;> rfl
  · split <;> rfl

/-- C3: once a display name has been resolved successfully, the id is
memoized: every later pass through the memoization guard — in any world —
returns the cached id with no remote request at all, and every later
`ensureFileStore` or `uploadDocument` issues no list-stores or
create-store request (resolution happens at most once per process unless
`storeId` is explicitly changed). -/
theorem c3_resolution_memoized (w1 : World) (s s' : ClientState) (t : List NetCall)
    (id : String)
    (h : resolveStoreIfNeeded w1 s = ⟨s', t, .ok id⟩) :
    (∀ w2 : World, resolveStoreIfNeeded w2 s' = ⟨s', [], .ok id⟩) ∧
    (∀ w2 : World,
      ((ensureFileStore w2 s').calls.all (fun c => !isResolutionCall c)) = true) ∧
    (∀ (w2 : World) (fsys : String → Option (List Nat)) (source : String)
        (metadata : Option DocumentMetadata),
      ((uploadDocument w2 fsys s' source metadata).calls.all
        (fun c => !isResolutionCall c)) = true) := by
  have hmem : s'.storeId = some id := resolveStoreIfNeeded_success_memoized w1 s s' t id h
  have hcached : ∀ w2 : World, resolveStoreIfNeeded w2 s' = ⟨s', [], .ok id⟩ :=
    fun w2 => resolveStoreIfNeeded_cached w2 s' id hmem
  refine ⟨hcached, ?_, ?_⟩
  · intro w2
    rcases hc : checkFileStoreExists w2 id with ⟨res, t2⟩
    have ht2 : t2 = [.getStore id] := by
      have := congrArg Prod.snd hc
      unfold checkFileStoreExists at this
      split at this
      · simp_all
      · split at this <;> simp_all
    subst ht2
    rcases res with e | b
    · simp [ensureFileStore, hcached w2, hc, isResolutionCall]
    · rcases b <;> simp [ensureFileStore, hcached w2, hc, isResolutionCall]
  · intro w2 fsys source metadata
    rcases hel : ensureLocalFile w2 fsys source with ⟨res, t2⟩
    have ht2 : t2.all (fun c => !isResolutionCall c) = true := by
      have := ensureLocalFile_calls_not_resolution w2 fsys source
      rw [hel] at this
      simpa using this
    rcases res with e | lc
    · simp [uploadDocument, hcached w2, hel, ht2]
    · rcases lc with ⟨localPath, content⟩
      rcases hrw : retryWithBackoff w2.uploadOutcomes 3 with ⟨rres, n⟩
      have hup := uploadCalls_not_resolution n
      rcases rres with e | uf <;>
        simp [uploadDocument, hcached w2, hel, hrw, ht2, hup, List.all_append]

/-- C3 (witness): after resolving "papers" once in `worldA`, the memoized
client answers resolution from the cache in every world. -/
theorem c3_resolution_memoized_witness :
    resolveStoreIfNeeded worldA sFresh = ⟨sCached, [.listStores 20], .ok "fileSearchStores/abc"⟩ ∧
    ((∀ w2 : World,
        resolveStoreIfNeeded w2 sCached = ⟨sCached, [], .ok "fileSearchStores/abc"⟩) ∧
      (∀ w2 : World,
        ((ensureFileStore w2 sCached).calls.all (fun c => !isResolutionCall c)) = true) ∧
      (∀ (w2 : World) (fsys : String → Option (List Nat)) (source : String)
          (metadata : Option DocumentMetadata),
        ((uploadDocument w2 fsys sCached source metadata).calls.all
          (fun c => !isResolutionCall c)) = true)) :=
  ⟨by decide,
   c3_resolution_memoized worldA sFresh sCached [.listStores 20] "fileSearchStores/abc"
     (by decide)⟩

/-- C4: the dedupe key depends only on the content hash and the title and
doi fields of the metadata — any two metadata objects agreeing on title and
doi (for example, differing only in tags, authors or year) give the same
key for every digest function — and identical bytes always give the same
content hash. -/
theorem c4_dedupe_key_canonical (sha256Str : String → String)
    (sha256Bytes : List Nat → String) (hash : String) (m1 m2 : DocumentMetadata)
    (ht : m1.title = m2.title) (hd : m1.doi = m2.doi) :
    generateDedupeKey sha256Str hash (some m1) = generateDedupeKey sha256Str hash (some m2) ∧
    (∀ b1 b2 : List Nat, b1 = b2 →
      calculateFileHash sha256Bytes b1 = calculateFileHash sha256Bytes b2) := by
  constructor
  · simp only [generateDedupeKey, dedupeInput, stringifyTitleDoi, ht, hd]
  · intro b1 b2 hb
    rw [hb]

/-- C4 (witness): two metadata objects differing only in tags give the same
dedupe key. -/
theorem c4_dedupe_key_canonical_witness :
    (metaT1.title = metaT2.title ∧ metaT1.doi = metaT2.doi) ∧
    generateDedupeKey id "aabb" (some metaT1) = generateDedupeKey id "aabb" (some metaT2) ∧
    (∀ b1 b2 : List Nat, b1 = b2 →
      calculateFileHash (fun _ => "h") b1 = calculateFileHash (fun _ => "h") b2) :=
  ⟨⟨rfl, rfl⟩,
   c4_dedupe_key_canonical id (fun _ => "h") "aabb" metaT1 metaT2 rfl rfl⟩

/-- C5 (counterexample): when a store named "existing-name" already exists,
the explicit `createFileStore` fails without a creation request — but the
existing store's id is carried in the error's message, and the `details`
map is absent (`none`), so the claim that the detail map includes the id is
false. -/
theorem c5_counterexample_id_in_message_not_details :
    createFileStore worldExisting sFresh (some "existing-name") =
      ⟨sFresh, [.listStores 20],
        .error
          { code := .API_ERROR,
            message := "A File Store with display name \"existing-name\" already exists (ID: fileSearchStores/abc). Use a different name or use the existing store.",
            retryable := false, details := none }⟩ ∧
    (alreadyExistsError "existing-name" "fileSearchStores/abc").details = none := by
  refine ⟨by decide, by decide⟩

/-- C5 (amended): when a store with an exactly equal display name exists,
the explicit `createFileStore` fails with a non-retryable (flag false)
`API_ERROR` whose MESSAGE contains the existing store's id — no details
map is attached — and issues no creation request. -/
theorem c5_explicit_create_collision (world : World) (s : ClientState) (dn : String)
    (stores : List FileSearchStore) (existingStore : FileSearchStore)
    (hl : world.listStoresResult = .ok stores)
    (hf : stores.find? (fun st => st.displayName == some dn) = some existingStore) :
    createFileStore world s (some dn) =
      ⟨s, [.listStores 20], .error (alreadyExistsError dn existingStore.name)⟩ ∧
    alreadyExistsError dn existingStore.name =
      { code := .API_ERROR,
        message := "A File Store with display name \"" ++ dn ++ "\" already exists (ID: "
          ++ existingStore.name ++ "). Use a different name or use the existing store.",
        retryable := false, details := none } ∧
    ((createFileStore world s (some dn)).calls.all (fun c => !isCreateStoreCall c)) = true := by
  have h1 : createFileStore world s (some dn) =
      ⟨s, [.listStores 20], .error (alreadyExistsError dn existingStore.name)⟩ := by
    simp [createFileStore, listFileStores, hl, hf]
  refine ⟨h1, rfl, ?_⟩
  rw [h1]
  rfl

/-- C5 (witness): the amended theorem at the concrete world in which
"existing-name" exists. -/
theorem c5_explicit_create_collision_witness :
    (worldExisting.listStoresResult = .ok [storeExisting] ∧
      ([storeExisting].find? (fun st => st.displayName == some "existing-name")
        = some storeExisting)) ∧
    (createFileStore worldExisting sFresh (some "existing-name") =
      ⟨sFresh, [.listStores 20],
        .error (alreadyExistsError "existing-name" storeExisting.name)⟩ ∧
    alreadyExistsError "existing-name" storeExisting.name =
      { code := .API_ERROR,
        message := "A File Store with display name \"" ++ "existing-name"
          ++ "\" already exists (ID: " ++ storeExisting.name
          ++ "). Use a different name or use the existing store.",
        retryable := false, details := none } ∧
    ((createFileStore worldExisting sFresh (some "existing-name")).calls.all
      (fun c => !isCreateStoreCall c)) = true) :=
  ⟨⟨rfl, by decide⟩,
   c5_explicit_create_collision worldExisting sFresh "existing-name" [storeExisting]
     storeExisting rfl (by decide)⟩

/-- C6 (counterexample): with the store id not yet resolved, `uploadDocument`
on a missing local path does fail with the non-retryable `FILE_NOT_FOUND`,
but a remote store-listing request is issued (for resolution) before the
failure, so the claim that no remote call of any kind is attempted is
false. -/
theorem c6_counterexample_resolution_before_check :
    uploadDocument worldA noFsys sFresh "/missing.pdf" none =
      ⟨sCached, [.listStores 20], .error (fileNotFoundError "/missing.pdf")⟩ ∧
    [NetCall.listStores 20] ≠ ([] : List NetCall) := by
  refine ⟨by decide, by decide⟩

/-- C6 (amended): for a non-URL source that does not exist locally,
`uploadDocument` fails with the non-retryable `FILE_NOT_FOUND` and issues
no upload, download, listing or probe request — the only requests that can
precede the failure are the collection-resolution requests, and when the
store id is already cached there is no remote request at all. -/
theorem c6_missing_local_file (world : World) (fsys : String → Option (List Nat))
    (s s' : ClientState) (t : List NetCall) (id source : String)
    (metadata : Option DocumentMetadata)
    (h1 : strStartsWith source "http://" = false)
    (h2 : strStartsWith source "https://" = false)
    (h3 : fsys source = none)
    (hres : resolveStoreIfNeeded world s = ⟨s', t, .ok id⟩) :
    uploadDocument world fsys s source metadata = ⟨s', t, .error (fileNotFoundError source)⟩ ∧
    (fileNotFoundError source).code = .FILE_NOT_FOUND ∧
    (fileNotFoundError source).retryable = false ∧
    t.all isResolutionCall = true ∧
    (s.storeId.isSome = true → t = []) := by
  have hel : ensureLocalFile world fsys source = (.error (fileNotFoundError source), []) := by
    simp [ensureLocalFile, h1, h2, h3]
  have hmain : uploadDocument world fsys s source metadata =
      ⟨s', t, .error (fileNotFoundError source)⟩ := by
    simp [uploadDocument, hres, hel]
  have htres : t.all isResolutionCall = true := by
    have := resolveStoreIfNeeded_calls_resolution world s
    rw [hres] at this
    simpa using this
  refine ⟨hmain, rfl, rfl, htres, ?_⟩
  intro hsome
  rcases hid : s.storeId with _ | i
  · rw [hid] at hsome
    simp at hsome
  · have hc := resolveStoreIfNeeded_cached world s i hid
    rw [hres] at hc
    have := congrArg OpResult.calls hc
    simpa using this

/-- C6 (witness): the amended theorem for a client whose store id is
cached: the missing-file failure with no remote request at all. -/
theorem c6_missing_local_file_witness :
    (strStartsWith "/missing.pdf" "http://" = false ∧
      strStartsWith "/missing.pdf" "https://" = false ∧
      noFsys "/missing.pdf" = none ∧
      resolveStoreIfNeeded worldA sCached = ⟨sCached, [], .ok "fileSearchStores/abc"⟩) ∧
    (uploadDocument worldA noFsys sCached "/missing.pdf" none =
      ⟨sCached, [], .error (fileNotFoundError "/missing.pdf")⟩ ∧
    (fileNotFoundError "/missing.pdf").code = .FILE_NOT_FOUND ∧
    (fileNotFoundError "/missing.pdf").retryable = false ∧
    List.all [] isResolutionCall = true ∧
    (sCached.storeId.isSome = true → ([] : List NetCall) = [])) :=
  ⟨⟨by decide, by decide, rfl, by decide⟩,
   c6_missing_local_file worldA noFsys sCached sCached [] "fileSearchStores/abc"
     "/missing.pdf" none (by decide) (by decide) rfl (by decide)⟩

/-- C9: for every successful file listing and every page ≥ 1 and pageSize
≥ 1, `listDocuments` succeeds and returns exactly the contiguous slice of
the full converted document list from index (page-1)*pageSize (inclusive)
for pageSize elements, together with a totalCount equal to the length of
the full list; a page starting at or past the end yields an empty page
(and still succeeds). -/
theorem c9_list_documents_pagination (world : World) (s : ClientState)
    (page pageSize : Nat) (files : List RemoteFile) (filters : Option ListFilters)
    (hfiles : world.listFilesOutcomes 1 = .ok files)
    (_hp : 1 ≤ page) (_hs : 1 ≤ pageSize) :
    listDocuments world s page pageSize filters =
      ⟨s, [.listFiles 1],
        .ok (((files.map (fileToDocument s.storeId world.now)).drop
            ((page - 1) * pageSize)).take pageSize,
          (files.map (fileToDocument s.storeId world.now)).length)⟩ ∧
    (files.map (fileToDocument s.storeId world.now)).length = files.length ∧
    ((files.map (fileToDocument s.storeId world.now)).length ≤ (page - 1) * pageSize →
      ((files.map (fileToDocument s.storeId world.now)).drop
        ((page - 1) * pageSize)).take pageSize = []) := by
  have hrw : retryWithBackoff world.listFilesOutcomes 3 = (.ok files, 1) := by
    simp [retryWithBackoff, retryAux, hfiles]
  refine ⟨?_, List.length_map files (fileToDocument s.storeId world.now), ?_⟩
  · simp [listDocuments, hrw, List.range_succ]
  · intro hle
    rw [List.drop_eq_nil_of_le hle, List.take_nil]

/-- C9 (witness): page 2 of size 2 over three files is exactly the third
converted document, with totalCount 3. -/
theorem c9_list_documents_pagination_witness :
    (worldFiles.listFilesOutcomes 1 = .ok [rfA, rfB, rfC] ∧ 1 ≤ 2 ∧ 1 ≤ 2) ∧
    (listDocuments worldFiles sCached 2 2 none =
      ⟨sCached, [.listFiles 1],
        .ok (((([rfA, rfB, rfC].map (fileToDocument sCached.storeId worldFiles.now))).drop
            ((2 - 1) * 2)).take 2,
          ([rfA, rfB, rfC].map (fileToDocument sCached.storeId worldFiles.now)).length)⟩ ∧
    ([rfA, rfB, rfC].map (fileToDocument sCached.storeId worldFiles.now)).length
      = [rfA, rfB, rfC].length ∧
    (([rfA, rfB, rfC].map (fileToDocument sCached.storeId worldFiles.now)).length
        ≤ (2 - 1) * 2 →
      ((([rfA, rfB, rfC].map (fileToDocument sCached.storeId worldFiles.now))).drop
        ((2 - 1) * 2)).take 2 = [])) :=
  ⟨⟨rfl, by decide, by decide⟩,
   c9_list_documents_pagination worldFiles sCached 2 2 [rfA, rfB, rfC] none rfl
     (by decide) (by decide)⟩

/-- C10: the dedupe derivation distinguishes absent metadata from
present-but-empty metadata: with no metadata the digest input is the hash
concatenated with the empty string, while with a metadata object whose
title and doi are both absent it is the hash concatenated with the
serialization of the empty object, so for any injective digest the two
dedupe keys differ even though title and doi agree (both absent). -/
theorem c10_absent_vs_empty_metadata (sha256Str : String → String) (hash : String)
    (m : DocumentMetadata) (hinj : Function.Injective sha256Str)
    (ht : m.title = none) (hd : m.doi = none) :
    dedupeInput hash none = hash ++ "" ∧
    dedupeInput hash (some m) = hash ++ "\x7b\x7d" ∧
    generateDedupeKey sha256Str hash none ≠ generateDedupeKey sha256Str hash (some m) := by
  have h2 : dedupeInput hash (some m) = hash ++ "\x7b\x7d" := by
    simp only [dedupeInput, stringifyTitleDoi, ht, hd]
  refine ⟨rfl, h2, ?_⟩
  intro hEq
  have h3 : dedupeInput hash none = dedupeInput hash (some m) := hinj hEq
  rw [h2] at h3
  have h4 : hash ++ "" = hash ++ "\x7b\x7d" := h3
  have h5 := congrArg String.length h4
  have h6 : ("" : String).length = 0 := rfl
  have h7 : ("\x7b\x7d" : String).length = 2 := rfl
  rw [String.length_append, String.length_append, h6, h7] at h5
  omega

/-- C10 (witness): with the identity digest, the absent-metadata call and
the empty-metadata call give different keys. -/
theorem c10_absent_vs_empty_metadata_witness :
    (Function.Injective (id : String → String) ∧
      emptyMetadata.title = none ∧ emptyMetadata.doi = none) ∧
    (dedupeInput "aabb" none = "aabb" ++ "" ∧
    dedupeInput "aabb" (some emptyMetadata) = "aabb" ++ "\x7b\x7d" ∧
    generateDedupeKey id "aabb" none ≠ generateDedupeKey id "aabb" (some emptyMetadata)) :=
  ⟨⟨Function.injective_id, rfl, rfl⟩,
   c10_absent_vs_empty_metadata id "aabb" emptyMetadata Function.injective_id rfl rfl⟩

end GeminiFS
